import Mathlib

/-!
Shallow embedding of `src/replication/ng/model/policy.go` (package `model`)
from the Harbor repository, together with proofs about the replication-policy
validator `Policy.Valid`.

The Go code validates a replication policy by appending `(field, message)`
errors to a beego `validation.Validation` accumulator.  We embed:

* the data model (`Policy`, `Filter`, `Trigger`, `TriggerSettings`) with all
  fields of the Go structs; `Filter.Value` is Go's `interface{}` and the two
  timestamps are opaque to the validator, so the policy is parametric in the
  type `α` of filter values and the type `τ` of timestamps;
* the validator twice: `valid` is the pure error list produced by one call
  (each `v.SetError` contributes one entry, in program order), and
  `Policy.Valid` is the stateful form threading the `Validation` accumulator
  exactly as the Go method does, returning the (unchanged) policy and the
  final accumulator.

Go's `for ... { if ...; break }` loops become structurally recursive scans
(`scanSrcNamespaces`, `scanFilters`) that stop at the first offender.
-/

namespace HarborModel

/-- Constants from the Go `const` block. -/
def FilterTypeResource : String := "resource"

def FilterTypeName : String := "name"

def FilterTypeTag : String := "tag"

def FilterTypeLabel : String := "label"

def TriggerTypeManual : String := "manual"

def TriggerTypeScheduled : String := "scheduled"

def TriggerTypeEventBased : String := "event_based"

/-- `FilterType` is a string type in the Go source. -/
abbrev FilterType := String

/-- `TriggerType` is a string type in the Go source. -/
abbrev TriggerType := String

/-- `TriggerSettings` holds the cron expression of a scheduled trigger. -/
structure TriggerSettings where
  Cron : String
deriving DecidableEq

/-- `Trigger` of a policy: a type tag and optional settings (`*TriggerSettings`). -/
structure Trigger where
  type : TriggerType
  Settings : Option TriggerSettings
deriving DecidableEq

/-- `Filter`: a type tag and an untyped value (`interface{}` in Go, here `α`). -/
structure Filter (α : Type) where
  type : FilterType
  Value : α

/-- `Policy` mirrors every field of the Go struct.  `α` is the type of filter
values (`interface{}`), `τ` the type of the two `time.Time` fields. -/
structure Policy (α τ : Type) where
  ID : Int
  Name : String
  Description : String
  Creator : String
  SrcRegistryID : Int
  SrcNamespaces : List String
  DestRegistryID : Int
  DestNamespace : String
  Filters : List (Filter α)
  Trigger : Option Trigger
  Deletion : Bool
  Override : Bool
  Enabled : Bool
  CreationTime : τ
  UpdateTime : τ

/-- One error reported through `v.SetError(field, message)`. -/
structure ValidationError where
  Field : String
  Message : String
deriving DecidableEq

/-- The beego `validation.Validation` accumulator, restricted to what the
validator touches: the ordered list of reported errors. -/
structure Validation where
  Errors : List ValidationError
deriving DecidableEq

/-- `v.SetError(field, message)` appends one error to the accumulator. -/
def Validation.SetError (v : Validation) (field message : String) : Validation :=
  ⟨v.Errors ++ [⟨field, message⟩]⟩

/-- Go: `p.Trigger.Settings == nil || len(p.Trigger.Settings.Cron) == 0`. -/
def cronMissing : Option TriggerSettings → Bool
  | none => true
  | some s => s.Cron.length == 0

/-- The `name` check: `if len(p.Name) == 0 { v.SetError("name", "cannot be empty") }`. -/
def checkName {α τ : Type} (p : Policy α τ) : List ValidationError :=
  if p.Name.length = 0 then [⟨"name", "cannot be empty"⟩] else []

/-- The registry check: fires when both registry IDs are non-zero or both are zero. -/
def checkRegistry {α τ : Type} (p : Policy α τ) : List ValidationError :=
  if (p.SrcRegistryID ≠ 0 ∧ p.DestRegistryID ≠ 0) ∨
      (p.SrcRegistryID = 0 ∧ p.DestRegistryID = 0) then
    [⟨"src_registry_id, dest_registry_id",
      "one of them should be empty and the other one shouldn't be empty"⟩]
  else []

/-- The `for _, namespace := range p.SrcNamespaces` loop: report once at the
first empty entry and `break`. -/
def scanSrcNamespaces : List String → List ValidationError
  | [] => []
  | ns :: rest =>
    if ns.length = 0 then [⟨"src_namespaces", "cannot contain empty namespace"⟩]
    else scanSrcNamespaces rest

/-- The `src_namespaces` check: empty list is an error, otherwise scan entries. -/
def checkSrcNamespaces {α τ : Type} (p : Policy α τ) : List ValidationError :=
  if p.SrcNamespaces.length = 0 then [⟨"src_namespaces", "cannot be empty"⟩]
  else scanSrcNamespaces p.SrcNamespaces

/-- The `for _, filter := range p.Filters` loop: report once at the first
filter whose type is outside {resource, name, tag, label} and `break`. -/
def scanFilters {α : Type} : List (Filter α) → List ValidationError
  | [] => []
  | f :: rest =>
    if f.type ≠ FilterTypeResource ∧ f.type ≠ FilterTypeName ∧
        f.type ≠ FilterTypeTag ∧ f.type ≠ FilterTypeLabel then
      [⟨"filters", "invalid filter type"⟩]
    else scanFilters rest

/-- The `filters` check. -/
def checkFilters {α τ : Type} (p : Policy α τ) : List ValidationError :=
  scanFilters p.Filters

/-- The trigger checks: nothing when `p.Trigger == nil`; otherwise the
invalid-type check followed by the scheduled-cron check. -/
def checkTrigger : Option Trigger → List ValidationError
  | none => []
  | some t =>
    (if t.type ≠ TriggerTypeManual ∧ t.type ≠ TriggerTypeScheduled ∧
        t.type ≠ TriggerTypeEventBased then
      [⟨"trigger", "invalid trigger type"⟩]
    else []) ++
    (if t.type = TriggerTypeScheduled ∧ cronMissing t.Settings = true then
      [⟨"trigger", "the cron string cannot be empty when the trigger type is scheduled"⟩]
    else [])

/-- The list of errors one call of `Policy.Valid` appends, in program order. -/
def valid {α τ : Type} (p : Policy α τ) : List ValidationError :=
  checkName p ++ checkRegistry p ++ checkSrcNamespaces p ++ checkFilters p ++
    checkTrigger p.Trigger

/-- The namespace loop in stateful form, appending to the accumulator. -/
def loopSrcNamespaces (v : Validation) : List String → Validation
  | [] => v
  | ns :: rest =>
    if ns.length = 0 then v.SetError "src_namespaces" "cannot contain empty namespace"
    else loopSrcNamespaces v rest

/-- The filter loop in stateful form, appending to the accumulator. -/
def loopFilters {α : Type} (v : Validation) : List (Filter α) → Validation
  | [] => v
  | f :: rest =>
    if f.type ≠ FilterTypeResource ∧ f.type ≠ FilterTypeName ∧
        f.type ≠ FilterTypeTag ∧ f.type ≠ FilterTypeLabel then
      v.SetError "filters" "invalid filter type"
    else loopFilters v rest

/-- `func (p *Policy) Valid(v *validation.Validation)`, embedded as a state
transformer: it receives the policy and the accumulator and returns both
(the Go method mutates only `v`; returning `p` makes the frame explicit). -/
def Policy.Valid {α τ : Type} (p : Policy α τ) (v : Validation) :
    Policy α τ × Validation :=
  let v1 := if p.Name.length = 0 then v.SetError "name" "cannot be empty" else v
  let v2 :=
    if (p.SrcRegistryID ≠ 0 ∧ p.DestRegistryID ≠ 0) ∨
        (p.SrcRegistryID = 0 ∧ p.DestRegistryID = 0) then
      v1.SetError "src_registry_id, dest_registry_id"
        "one of them should be empty and the other one shouldn't be empty"
    else v1
  let v3 :=
    if p.SrcNamespaces.length = 0 then v2.SetError "src_namespaces" "cannot be empty"
    else loopSrcNamespaces v2 p.SrcNamespaces
  let v4 := loopFilters v3 p.Filters
  let v5 :=
    match p.Trigger with
    | none => v4
    | some t =>
      let v4a :=
        if t.type ≠ TriggerTypeManual ∧ t.type ≠ TriggerTypeScheduled ∧
            t.type ≠ TriggerTypeEventBased then
          v4.SetError "trigger" "invalid trigger type"
        else v4
      if t.type = TriggerTypeScheduled ∧ cronMissing t.Settings = true then
        v4a.SetError "trigger"
          "the cron string cannot be empty when the trigger type is scheduled"
      else v4a
  (p, v5)

/-- The valid example policy of the spec's end-to-end test. -/
def policyP1 : Policy Unit Unit :=
  ⟨0, "p1", "", "", 0, ["library"], 5, "", [], none, false, false, false, (), ()⟩

/-- The thrice-invalid example policy of the spec's end-to-end test. -/
def policyEmpty : Policy Unit Unit :=
  ⟨0, "", "", "", 0, [], 0, "", [], none, false, false, false, (), ()⟩

/-- A policy with an unknown trigger type and no trigger settings. -/
def policyBogusTrigger : Policy Unit Unit :=
  ⟨0, "p", "", "", 0, ["ns"], 5, "", [], some ⟨"bogus", none⟩, false, false, false, (), ()⟩

/-- A policy with a scheduled trigger and missing settings (nil cron). -/
def policyScheduledNoCron : Policy Unit Unit :=
  ⟨0, "p", "", "", 0, ["ns"], 5, "", [], some ⟨"scheduled", none⟩, false, false, false, (), ()⟩

/-- A policy whose source namespaces contain an empty entry. -/
def policyGapNamespaces : Policy Unit Unit :=
  ⟨0, "p", "", "", 0, ["a", "", "b"], 5, "", [], none, false, false, false, (), ()⟩

/-- A policy with two filters of invalid type (after one valid one). -/
def policyBadFilter : Policy Unit Unit :=
  ⟨0, "p", "", "", 0, ["ns"], 5, "", [⟨"resource", ()⟩, ⟨"bogus", ()⟩, ⟨"weird", ()⟩],
    none, false, false, false, (), ()⟩

/-- First of a pair of policies agreeing exactly on the validated fields. -/
def policyObsA : Policy Nat Nat :=
  ⟨1, "p1", "d1", "alice", 0, ["library"], 5, "dest1", [⟨"name", 3⟩],
    some ⟨"manual", none⟩, true, false, true, 10, 20⟩

/-- Second of the pair: same validated fields, every other field different,
including the types of the filter values and of the timestamps. -/
def policyObsB : Policy String Bool :=
  ⟨2, "p1", "d2", "bob", 0, ["library"], 5, "", [⟨"name", "x"⟩],
    some ⟨"manual", none⟩, false, true, false, true, false⟩

/-- A string of length zero is the empty string. -/
theorem string_eq_empty_of_length {s : String} (h : s.length = 0) : s = "" := by
  cases s with
  | mk data =>
    cases data with
    | nil => rfl
    | cons c cs => simp [String.length] at h

/-- Any error in `valid p` comes from one of the five checks. -/
theorem mem_valid {α τ : Type} {p : Policy α τ} {e : ValidationError} (h : e ∈ valid p) :
    e ∈ checkName p ∨ e ∈ checkRegistry p ∨ e ∈ checkSrcNamespaces p ∨
      e ∈ checkFilters p ∨ e ∈ checkTrigger p.Trigger := by
  unfold valid at h
  simp only [List.mem_append] at h
  tauto

/-- The name check only ever reports the `name` error. -/
theorem mem_checkName {α τ : Type} {p : Policy α τ} {e : ValidationError}
    (h : e ∈ checkName p) : e = ⟨"name", "cannot be empty"⟩ := by
  unfold checkName at h
  split at h <;> simp_all

/-- The registry check only ever reports the registry error. -/
theorem mem_checkRegistry {α τ : Type} {p : Policy α τ} {e : ValidationError}
    (h : e ∈ checkRegistry p) :
    e = ⟨"src_registry_id, dest_registry_id",
      "one of them should be empty and the other one shouldn't be empty"⟩ := by
  unfold checkRegistry at h
  split at h <;> simp_all

/-- The namespace scan reports once exactly when some entry is empty. -/
theorem scanSrcNamespaces_eq (l : List String) :
    scanSrcNamespaces l =
      if ∃ ns ∈ l, ns.length = 0 then
        [⟨"src_namespaces", "cannot contain empty namespace"⟩]
      else [] := by
  induction l with
  | nil => simp [scanSrcNamespaces]
  | cons ns rest ih =>
    by_cases hns : ns.length = 0
    · simp [scanSrcNamespaces, hns, List.exists_mem_cons_iff]
    · simp [scanSrcNamespaces, hns, ih, List.exists_mem_cons_iff]

/-- The namespaces check only ever reports `src_namespaces` errors. -/
theorem mem_checkSrcNamespaces {α τ : Type} {p : Policy α τ} {e : ValidationError}
    (h : e ∈ checkSrcNamespaces p) : e.Field = "src_namespaces" := by
  unfold checkSrcNamespaces at h
  split at h
  · simp_all
  · rw [scanSrcNamespaces_eq] at h
    split at h <;> simp_all

/-- The filter scan reports once exactly when some filter type is invalid. -/
theorem scanFilters_eq {α : Type} (l : List (Filter α)) :
    scanFilters l =
      if ∃ f ∈ l, f.type ≠ FilterTypeResource ∧ f.type ≠ FilterTypeName ∧
          f.type ≠ FilterTypeTag ∧ f.type ≠ FilterTypeLabel then
        [⟨"filters", "invalid filter type"⟩]
      else [] := by
  induction l with
  | nil => simp [scanFilters]
  | cons f rest ih =>
    by_cases hf : f.type ≠ FilterTypeResource ∧ f.type ≠ FilterTypeName ∧
        f.type ≠ FilterTypeTag ∧ f.type ≠ FilterTypeLabel
    · simp [scanFilters, hf, List.exists_mem_cons_iff]
    · simp [scanFilters, hf, ih, List.exists_mem_cons_iff]

/-- The filters check only ever reports the `filters` error. -/
theorem mem_checkFilters {α τ : Type} {p : Policy α τ} {e : ValidationError}
    (h : e ∈ checkFilters p) : e = ⟨"filters", "invalid filter type"⟩ := by
  unfold checkFilters at h
  rw [scanFilters_eq] at h
  split at h <;> simp_all

/-- The trigger checks only ever report `trigger` errors. -/
theorem mem_checkTrigger {o : Option Trigger} {e : ValidationError}
    (h : e ∈ checkTrigger o) : e.Field = "trigger" := by
  cases o with
  | none => simp [checkTrigger] at h
  | some t =>
    unfold checkTrigger at h
    rw [List.mem_append] at h
    rcases h with h | h <;> (split at h <;> simp_all)

/-- An error of `valid p` whose field is `trigger` comes from the trigger checks. -/
theorem mem_checkTrigger_of_mem_valid {α τ : Type} {p : Policy α τ} {e : ValidationError}
    (h : e ∈ valid p) (hf : e.Field = "trigger") : e ∈ checkTrigger p.Trigger := by
  rcases mem_valid h with hb | hb | hb | hb | hb
  · rw [mem_checkName hb] at hf
    exact absurd hf (by decide)
  · rw [mem_checkRegistry hb] at hf
    exact absurd hf (by decide)
  · exact absurd ((mem_checkSrcNamespaces hb).symm.trans hf) (by decide)
  · rw [mem_checkFilters hb] at hf
    exact absurd hf (by decide)
  · exact hb

/-- The two trigger errors are mutually exclusive: the invalid-type error
requires a type outside the enumeration, the cron error requires the type
`scheduled`, which is inside it. -/
theorem checkTrigger_not_both {o : Option Trigger}
    (h1 : (⟨"trigger", "invalid trigger type"⟩ : ValidationError) ∈ checkTrigger o)
    (h2 : (⟨"trigger",
      "the cron string cannot be empty when the trigger type is scheduled"⟩ :
        ValidationError) ∈ checkTrigger o) : False := by
  cases o with
  | none => simp [checkTrigger] at h1
  | some t =>
    unfold checkTrigger at h1 h2
    rw [List.mem_append] at h1 h2
    have ht1 : t.type ≠ TriggerTypeScheduled := by
      rcases h1 with h | h
      · split at h
        · next hc => exact hc.2.1
        · simp at h
      · split at h
        · exact absurd h (by decide)
        · simp at h
    have ht2 : t.type = TriggerTypeScheduled := by
      rcases h2 with h | h
      · split at h
        · exact absurd h (by decide)
        · simp at h
      · split at h
        · next hc => exact hc.1
        · simp at h
    exact ht1 ht2

/-- C1: Policy{Name:"p1", SrcRegistryID:0, DestRegistryID:5,
SrcNamespaces:["library"], Filters:[], Trigger:nil} validates with zero
errors. -/
theorem valid_policyP1_eq_nil : valid policyP1 = [] := by decide

/-- C3: Policy{Name:"", SrcRegistryID:0, DestRegistryID:0, SrcNamespaces:[]}
yields exactly three errors, in order: `name`, `src_registry_id,
dest_registry_id`, `src_namespaces`. -/
theorem valid_policyEmpty_eq_three :
    valid policyEmpty =
      [⟨"name", "cannot be empty"⟩,
        ⟨"src_registry_id, dest_registry_id",
          "one of them should be empty and the other one shouldn't be empty"⟩,
        ⟨"src_namespaces", "cannot be empty"⟩] := by decide

/-- C2: the `src_registry_id, dest_registry_id` error is reported (exactly
once) if and only if both registry IDs are zero or both are non-zero; when
exactly one is zero the registry check reports nothing. -/
theorem registry_error_count {α τ : Type} (p : Policy α τ) :
    (valid p).countP (fun e => e.Field == "src_registry_id, dest_registry_id") =
      if (p.SrcRegistryID = 0 ∧ p.DestRegistryID = 0) ∨
          (p.SrcRegistryID ≠ 0 ∧ p.DestRegistryID ≠ 0) then 1 else 0 := by
  unfold valid
  simp only [List.countP_append]
  have h1 : (checkName p).countP
      (fun e => e.Field == "src_registry_id, dest_registry_id") = 0 := by
    unfold checkName; split <;> decide
  have h3 : (checkSrcNamespaces p).countP
      (fun e => e.Field == "src_registry_id, dest_registry_id") = 0 := by
    unfold checkSrcNamespaces
    split
    · decide
    · rw [scanSrcNamespaces_eq]; split <;> decide
  have h4 : (checkFilters p).countP
      (fun e => e.Field == "src_registry_id, dest_registry_id") = 0 := by
    unfold checkFilters
    rw [scanFilters_eq]; split <;> decide
  have h5 : (checkTrigger p.Trigger).countP
      (fun e => e.Field == "src_registry_id, dest_registry_id") = 0 := by
    cases p.Trigger with
    | none => rfl
    | some t =>
      unfold checkTrigger
      rw [List.countP_append]
      split <;> split <;> decide
  have h2 : (checkRegistry p).countP
      (fun e => e.Field == "src_registry_id, dest_registry_id") =
        if (p.SrcRegistryID = 0 ∧ p.DestRegistryID = 0) ∨
            (p.SrcRegistryID ≠ 0 ∧ p.DestRegistryID ≠ 0) then 1 else 0 := by
    unfold checkRegistry
    by_cases hc : (p.SrcRegistryID ≠ 0 ∧ p.DestRegistryID ≠ 0) ∨
        (p.SrcRegistryID = 0 ∧ p.DestRegistryID = 0)
    · rw [if_pos hc, if_pos (by tauto)]; decide
    · rw [if_neg hc, if_neg (by tauto)]; decide
  rw [h1, h2, h3, h4, h5]
  split <;> simp

/-- C4: with empty `SrcNamespaces` the validator reports "cannot be empty"
and never the empty-entry message; with a non-empty list containing an empty
entry it reports "cannot contain empty namespace" exactly once and never the
emptiness message. -/
theorem src_namespaces_check {α τ : Type} (p : Policy α τ) :
    (p.SrcNamespaces = [] →
      (⟨"src_namespaces", "cannot be empty"⟩ : ValidationError) ∈ valid p ∧
      (⟨"src_namespaces", "cannot contain empty namespace"⟩ : ValidationError) ∉ valid p)
    ∧ (p.SrcNamespaces ≠ [] → "" ∈ p.SrcNamespaces →
      (valid p).count ⟨"src_namespaces", "cannot contain empty namespace"⟩ = 1 ∧
      (⟨"src_namespaces", "cannot be empty"⟩ : ValidationError) ∉ valid p) := by
  constructor
  · intro h
    have hcheck : checkSrcNamespaces p = [⟨"src_namespaces", "cannot be empty"⟩] := by
      unfold checkSrcNamespaces
      rw [if_pos (by rw [h]; rfl)]
    constructor
    · unfold valid
      simp only [List.mem_append]
      have : (⟨"src_namespaces", "cannot be empty"⟩ : ValidationError) ∈
          checkSrcNamespaces p := by
        rw [hcheck]; exact List.mem_singleton.mpr rfl
      tauto
    · intro hmem
      rcases mem_valid hmem with hb | hb | hb | hb | hb
      · exact absurd (mem_checkName hb) (by decide)
      · exact absurd (mem_checkRegistry hb) (by decide)
      · rw [hcheck] at hb
        exact absurd (List.mem_singleton.mp hb) (by decide)
      · exact absurd (mem_checkFilters hb) (by decide)
      · exact absurd (mem_checkTrigger hb) (by decide)
  · intro hne hmem
    have hlen : ¬ p.SrcNamespaces.length = 0 := by
      simpa [List.length_eq_zero] using hne
    have hcheck : checkSrcNamespaces p =
        [⟨"src_namespaces", "cannot contain empty namespace"⟩] := by
      unfold checkSrcNamespaces
      rw [if_neg hlen, scanSrcNamespaces_eq, if_pos ⟨"", hmem, rfl⟩]
    constructor
    · unfold valid
      simp only [List.count_append]
      rw [hcheck]
      have c1 : (checkName p).count
          ⟨"src_namespaces", "cannot contain empty namespace"⟩ = 0 :=
        List.count_eq_zero.mpr (fun hb => absurd (mem_checkName hb) (by decide))
      have c2 : (checkRegistry p).count
          ⟨"src_namespaces", "cannot contain empty namespace"⟩ = 0 :=
        List.count_eq_zero.mpr (fun hb => absurd (mem_checkRegistry hb) (by decide))
      have c4 : (checkFilters p).count
          ⟨"src_namespaces", "cannot contain empty namespace"⟩ = 0 :=
        List.count_eq_zero.mpr (fun hb => absurd (mem_checkFilters hb) (by decide))
      have c5 : (checkTrigger p.Trigger).count
          ⟨"src_namespaces", "cannot contain empty namespace"⟩ = 0 :=
        List.count_eq_zero.mpr (fun hb => absurd (mem_checkTrigger hb) (by decide))
      rw [c1, c2, c4, c5]
      decide
    · intro hmem2
      rcases mem_valid hmem2 with hb | hb | hb | hb | hb
      · exact absurd (mem_checkName hb) (by decide)
      · exact absurd (mem_checkRegistry hb) (by decide)
      · rw [hcheck] at hb
        exact absurd (List.mem_singleton.mp hb) (by decide)
      · exact absurd (mem_checkFilters hb) (by decide)
      · exact absurd (mem_checkTrigger hb) (by decide)

/-- C4 witness: both branches at concrete policies. -/
theorem src_namespaces_check_witness :
    ((⟨"src_namespaces", "cannot be empty"⟩ : ValidationError) ∈ valid policyEmpty ∧
      (⟨"src_namespaces", "cannot contain empty namespace"⟩ : ValidationError) ∉
        valid policyEmpty) ∧
    ((valid policyGapNamespaces).count
        ⟨"src_namespaces", "cannot contain empty namespace"⟩ = 1 ∧
      (⟨"src_namespaces", "cannot be empty"⟩ : ValidationError) ∉
        valid policyGapNamespaces) :=
  ⟨(src_namespaces_check policyEmpty).1 rfl,
    (src_namespaces_check policyGapNamespaces).2 (by decide) (by decide)⟩

/-- C5: a `filters` error is reported exactly once when some filter type is
outside {resource, name, tag, label}, never otherwise, and its message is
always "invalid filter type". -/
theorem filters_check {α τ : Type} (p : Policy α τ) :
    (valid p).countP (fun e => e.Field == "filters") =
      (if ∃ f ∈ p.Filters, f.type ≠ FilterTypeResource ∧ f.type ≠ FilterTypeName ∧
          f.type ≠ FilterTypeTag ∧ f.type ≠ FilterTypeLabel then 1 else 0) ∧
    ∀ e ∈ valid p, e.Field = "filters" → e = ⟨"filters", "invalid filter type"⟩ := by
  constructor
  · unfold valid
    simp only [List.countP_append]
    have h1 : (checkName p).countP (fun e => e.Field == "filters") = 0 := by
      unfold checkName; split <;> decide
    have h2 : (checkRegistry p).countP (fun e => e.Field == "filters") = 0 := by
      unfold checkRegistry; split <;> decide
    have h3 : (checkSrcNamespaces p).countP (fun e => e.Field == "filters") = 0 := by
      unfold checkSrcNamespaces
      split
      · decide
      · rw [scanSrcNamespaces_eq]; split <;> decide
    have h5 : (checkTrigger p.Trigger).countP (fun e => e.Field == "filters") = 0 := by
      cases p.Trigger with
      | none => rfl
      | some t =>
        unfold checkTrigger
        rw [List.countP_append]
        split <;> split <;> decide
    have h4 : (checkFilters p).countP (fun e => e.Field == "filters") =
        if ∃ f ∈ p.Filters, f.type ≠ FilterTypeResource ∧ f.type ≠ FilterTypeName ∧
            f.type ≠ FilterTypeTag ∧ f.type ≠ FilterTypeLabel then 1 else 0 := by
      unfold checkFilters
      rw [scanFilters_eq]
      by_cases hc : ∃ f ∈ p.Filters, f.type ≠ FilterTypeResource ∧
          f.type ≠ FilterTypeName ∧ f.type ≠ FilterTypeTag ∧ f.type ≠ FilterTypeLabel
      · rw [if_pos hc, if_pos hc]; decide
      · rw [if_neg hc, if_neg hc]; decide
    rw [h1, h2, h3, h4, h5]
    split <;> simp
  · intro e he hf
    rcases mem_valid he with hb | hb | hb | hb | hb
    · rw [mem_checkName hb] at hf
      exact absurd hf (by decide)
    · rw [mem_checkRegistry hb] at hf
      exact absurd hf (by decide)
    · exact absurd ((mem_checkSrcNamespaces hb).symm.trans hf) (by decide)
    · exact mem_checkFilters hb
    · exact absurd ((mem_checkTrigger hb).symm.trans hf) (by decide)

/-- C5 witness: the policy with several invalid filters gets exactly one
`filters` error. -/
theorem filters_check_witness :
    (valid policyBadFilter).countP (fun e => e.Field == "filters") = 1 :=
  (filters_check policyBadFilter).1.trans (by decide)

/-- C6: a scheduled trigger with nil settings or an empty cron string yields
the empty-cron `trigger` error; with a non-empty cron no `trigger` error is
reported at all. -/
theorem scheduled_trigger_cron {α τ : Type} (p : Policy α τ) (t : Trigger)
    (hp : p.Trigger = some t) (hs : t.type = TriggerTypeScheduled) :
    ((t.Settings = none ∨ ∃ s, t.Settings = some s ∧ s.Cron = "") →
      (⟨"trigger",
        "the cron string cannot be empty when the trigger type is scheduled"⟩ :
          ValidationError) ∈ valid p) ∧
    (∀ s, t.Settings = some s → s.Cron ≠ "" →
      ∀ e ∈ valid p, e.Field ≠ "trigger") := by
  constructor
  · intro hset
    have hcm : cronMissing t.Settings = true := by
      rcases hset with h | ⟨s, hs2, hc⟩
      · rw [h]; rfl
      · rw [hs2]; simp [cronMissing, hc]
    have hmem : (⟨"trigger",
        "the cron string cannot be empty when the trigger type is scheduled"⟩ :
          ValidationError) ∈ checkTrigger p.Trigger := by
      rw [hp]
      unfold checkTrigger
      rw [List.mem_append]
      right
      rw [if_pos ⟨hs, hcm⟩]
      exact List.mem_singleton.mpr rfl
    unfold valid
    simp only [List.mem_append]
    tauto
  · intro s hset hcron e he hf
    have hm := mem_checkTrigger_of_mem_valid he hf
    rw [hp] at hm
    unfold checkTrigger at hm
    rw [List.mem_append] at hm
    have hinv : ¬(t.type ≠ TriggerTypeManual ∧ t.type ≠ TriggerTypeScheduled ∧
        t.type ≠ TriggerTypeEventBased) := fun hc => hc.2.1 hs
    have hcm : ¬(t.type = TriggerTypeScheduled ∧ cronMissing t.Settings = true) := by
      rintro ⟨-, hc⟩
      rw [hset] at hc
      have hz : s.Cron.length = 0 := by simpa [cronMissing] using hc
      exact hcron (string_eq_empty_of_length hz)
    rw [if_neg hinv, if_neg hcm] at hm
    simp at hm

/-- C6 witness: the scheduled trigger without settings gets the cron error. -/
theorem scheduled_trigger_cron_witness :
    (⟨"trigger",
      "the cron string cannot be empty when the trigger type is scheduled"⟩ :
        ValidationError) ∈ valid policyScheduledNoCron :=
  (scheduled_trigger_cron policyScheduledNoCron ⟨TriggerTypeScheduled, none⟩
    rfl rfl).1 (Or.inl rfl)

/-- C7 counterexample: no trigger value makes Valid report both the
invalid-trigger-type error and the empty-cron error in the same call — the
cron check fires only for the type "scheduled", which the invalid-type check
accepts. -/
theorem trigger_both_errors_impossible :
    ¬ ∃ (t : Trigger) (p : Policy Unit Unit), p.Trigger = some t ∧
      (⟨"trigger", "invalid trigger type"⟩ : ValidationError) ∈ valid p ∧
      (⟨"trigger",
        "the cron string cannot be empty when the trigger type is scheduled"⟩ :
          ValidationError) ∈ valid p := by
  rintro ⟨t, p, -, h1, h2⟩
  exact checkTrigger_not_both (mem_checkTrigger_of_mem_valid h1 rfl)
    (mem_checkTrigger_of_mem_valid h2 rfl)

/-- C7 amended: the two trigger checks are mutually exclusive — whenever the
invalid-trigger-type error is reported, the empty-cron error is not. -/
theorem trigger_errors_exclusive {α τ : Type} (p : Policy α τ)
    (h : (⟨"trigger", "invalid trigger type"⟩ : ValidationError) ∈ valid p) :
    (⟨"trigger",
      "the cron string cannot be empty when the trigger type is scheduled"⟩ :
        ValidationError) ∉ valid p :=
  fun h2 => checkTrigger_not_both (mem_checkTrigger_of_mem_valid h rfl)
    (mem_checkTrigger_of_mem_valid h2 rfl)

/-- C7 witness: the bogus trigger gets the invalid-type error and not the
cron error. -/
theorem trigger_errors_exclusive_witness :
    (⟨"trigger", "invalid trigger type"⟩ : ValidationError) ∈ valid policyBogusTrigger ∧
    (⟨"trigger",
      "the cron string cannot be empty when the trigger type is scheduled"⟩ :
        ValidationError) ∉ valid policyBogusTrigger :=
  ⟨by decide, trigger_errors_exclusive policyBogusTrigger (by decide)⟩

/-- C8: with a nil trigger no `trigger` error is ever reported, whatever the
other fields are. -/
theorem trigger_nil_no_error {α τ : Type} (p : Policy α τ) (h : p.Trigger = none) :
    ∀ e ∈ valid p, e.Field ≠ "trigger" := by
  intro e he hf
  have hm := mem_checkTrigger_of_mem_valid he hf
  rw [h] at hm
  simp [checkTrigger] at hm

/-- C8 witness: applied to the policy with every other check failing. -/
theorem trigger_nil_no_error_witness :
    policyEmpty.Trigger = none ∧
    (⟨"name", "cannot be empty"⟩ : ValidationError).Field ≠ "trigger" :=
  ⟨rfl, trigger_nil_no_error policyEmpty rfl ⟨"name", "cannot be empty"⟩ (by decide)⟩

/-- The stateful namespace loop appends exactly the scan result. -/
theorem loopSrcNamespaces_eq (v : Validation) (l : List String) :
    loopSrcNamespaces v l = ⟨v.Errors ++ scanSrcNamespaces l⟩ := by
  induction l with
  | nil => simp [loopSrcNamespaces, scanSrcNamespaces]
  | cons ns rest ih =>
    by_cases hns : ns.length = 0 <;>
      simp [loopSrcNamespaces, scanSrcNamespaces, hns, ih, Validation.SetError]

/-- The stateful filter loop appends exactly the scan result. -/
theorem loopFilters_eq {α : Type} (v : Validation) (l : List (Filter α)) :
    loopFilters v l = ⟨v.Errors ++ scanFilters l⟩ := by
  induction l with
  | nil => simp [loopFilters, scanFilters]
  | cons f rest ih =>
    by_cases hf : f.type ≠ FilterTypeResource ∧ f.type ≠ FilterTypeName ∧
        f.type ≠ FilterTypeTag ∧ f.type ≠ FilterTypeLabel <;>
      simp [loopFilters, scanFilters, hf, ih, Validation.SetError]

/-- C9: `Valid` leaves the policy untouched and its only effect is to append
this call's errors to the caller-supplied accumulator. -/
theorem Valid_frame {α τ : Type} (p : Policy α τ) (v : Validation) :
    p.Valid v = (p, ⟨v.Errors ++ valid p⟩) := by
  cases ht : p.Trigger with
  | none =>
    by_cases h1 : p.Name.length = 0 <;>
    by_cases h2 : (p.SrcRegistryID ≠ 0 ∧ p.DestRegistryID ≠ 0) ∨
        (p.SrcRegistryID = 0 ∧ p.DestRegistryID = 0) <;>
    by_cases h3 : p.SrcNamespaces.length = 0 <;>
      simp [Policy.Valid, valid, checkName, checkRegistry, checkSrcNamespaces,
        checkFilters, checkTrigger, Validation.SetError, loopSrcNamespaces_eq,
        loopFilters_eq, h1, h2, h3, ht, List.append_assoc]
  | some t =>
    by_cases h1 : p.Name.length = 0 <;>
    by_cases h2 : (p.SrcRegistryID ≠ 0 ∧ p.DestRegistryID ≠ 0) ∨
        (p.SrcRegistryID = 0 ∧ p.DestRegistryID = 0) <;>
    by_cases h3 : p.SrcNamespaces.length = 0 <;>
    by_cases h4 : t.type ≠ TriggerTypeManual ∧ t.type ≠ TriggerTypeScheduled ∧
        t.type ≠ TriggerTypeEventBased <;>
    by_cases h5 : t.type = TriggerTypeScheduled ∧ cronMissing t.Settings = true <;>
      simp [Policy.Valid, valid, checkName, checkRegistry, checkSrcNamespaces,
        checkFilters, checkTrigger, Validation.SetError, loopSrcNamespaces_eq,
        loopFilters_eq, h1, h2, h3, h4, h5, ht, List.append_assoc]

/-- The filter scan depends only on the sequence of filter types. -/
theorem scanFilters_congr {α β : Type} :
    ∀ (l : List (Filter α)) (l2 : List (Filter β)),
      l.map Filter.type = l2.map Filter.type → scanFilters l = scanFilters l2 := by
  intro l
  induction l with
  | nil =>
    intro l2 h
    cases l2 with
    | nil => rfl
    | cons g s => simp at h
  | cons f r ih =>
    intro l2 h
    cases l2 with
    | nil => simp at h
    | cons g s =>
      simp only [List.map_cons, List.cons.injEq] at h
      obtain ⟨hfg, hrs⟩ := h
      unfold scanFilters
      rw [hfg, ih s hrs]

/-- C10: the validation outcome depends only on the name, the two registry
IDs, the source namespaces, the filter types and the trigger; any two
policies agreeing on those — with arbitrary ID, description, creator,
destination namespace, filter values, settings, lifecycle fields, and even
the value and timestamp types — validate identically. In particular
`DestNamespace` is never validated. -/
theorem valid_congr {α β τ σ : Type} (p : Policy α τ) (q : Policy β σ)
    (h1 : p.Name = q.Name) (h2 : p.SrcRegistryID = q.SrcRegistryID)
    (h3 : p.DestRegistryID = q.DestRegistryID)
    (h4 : p.SrcNamespaces = q.SrcNamespaces)
    (h5 : p.Filters.map Filter.type = q.Filters.map Filter.type)
    (h6 : p.Trigger = q.Trigger) : valid p = valid q := by
  unfold valid checkName checkRegistry checkSrcNamespaces checkFilters
  rw [h1, h2, h3, h4, h6, scanFilters_congr p.Filters q.Filters h5]

/-- C10 witness: two policies agreeing exactly on the validated fields and
differing everywhere else (including the filter-value and timestamp types)
validate identically. -/
theorem valid_congr_witness : valid policyObsA = valid policyObsB :=
  valid_congr policyObsA policyObsB rfl rfl rfl rfl rfl rfl

end HarborModel
